import Mathlib

/-!
Shallow embedding of the arbiter and signal-handling core of the actix
runtime (src/arbiter.rs and src/actors/signal.rs).

Conventions of the embedding:
* machine integers (the i32 exit code) are modelled as Int; no arithmetic
  is performed on them in the embedded code;
* opaque runtime handles (tokio Handle, oneshot Sender, addresses,
  registries) are modelled by abstract identities (Nat), except
  SyncAddress<Arbiter>, which carries the Arbiter actor it addresses so
  that the Arbiter::new handshake can be stated;
* thread-local cells (RefCell<Option<..>>) become Option fields of an
  explicit ThreadLocals record threaded through the handlers;
* a handler that in Rust mutates `self`/thread-locals and fires channel
  sends is a pure function from the pre-state to the post-state together
  with the emitted observable effects;
* panics are modelled with Except.error carrying the panic message.
-/

namespace ActixModel

/-- Exit code carried by StopArbiter / SystemExit (i32 in the source). -/
abbrev ExitCode := Int

/-- tokio_core reactor Handle, abstract identity. -/
abbrev Handle := Nat

/-- Sending half of the oneshot stop channel (futures Sender<i32>). -/
abbrev StopSender := Nat

/-- Same-thread Address<Arbiter>, abstract identity. -/
abbrev ArbiterAddr := Nat

/-- SyncAddress<System>, abstract identity. -/
abbrev SystemAddr := Nat

/-- Per-arbiter Registry, abstract identity. -/
abbrev Registry := Nat

/-- Process-wide SystemRegistry, abstract identity. -/
abbrev SystemRegistry := Nat

/-- The Arbiter actor's own fields (arbiter.rs lines 33-36): a unique id
(Uuid, modelled as String) and the flag marking the distinguished system
arbiter. -/
structure Arbiter where
  id : String
  sys : Bool
deriving DecidableEq

/-- SyncAddress<Arbiter>: a cross-thread handle, identified by the Arbiter
actor instance it addresses (the second component returned by
Actor::start). -/
structure SyncAddrArbiter where
  target : Arbiter
deriving DecidableEq

/-- The nine thread-local cells of arbiter.rs lines 16-26 (HND, STOP, ADDR,
REG, NAME, SYS, SYSARB, SYSNAME, SYSREG); each starts as
RefCell::new(None), hence an Option. -/
structure ThreadLocals where
  hnd : Option Handle
  stop : Option StopSender
  addr : Option ArbiterAddr
  reg : Option Registry
  name : Option String
  sys : Option SystemAddr
  sysarb : Option SyncAddrArbiter
  sysname : Option String
  sysreg : Option SystemRegistry
deriving DecidableEq

/-- Typed response of a message handler (message::Response): either the
Item payload or the Error payload of the actor's ResponseType for that
message. -/
inductive Response (I E : Type) where
  | reply : I → Response I E
  | error : E → Response I E
deriving DecidableEq

/-- Self::empty() for a handler whose ResponseType is Item = (), Error = (). -/
def Response.empty : Response Unit Unit := Response.reply ()

/-- Arbiter::name (arbiter.rs 126-131): clone of the NAME cell, panic
"Arbiter is not running" when the cell is unset. -/
def Arbiter.name (tl : ThreadLocals) : Except String String :=
  match tl.name with
  | some n => Except.ok n
  | none => Except.error "Arbiter is not running"

/-- Arbiter::arbiter (arbiter.rs 134-139): clone of the ADDR cell, panic
"Arbiter is not running" when the cell is unset. -/
def Arbiter.arbiter (tl : ThreadLocals) : Except String ArbiterAddr :=
  match tl.addr with
  | some a => Except.ok a
  | none => Except.error "Arbiter is not running"

/-- Arbiter::system (arbiter.rs 142-147): clone of the SYS cell, panic
"System is not running" when the cell is unset. -/
def Arbiter.system (tl : ThreadLocals) : Except String SystemAddr :=
  match tl.sys with
  | some a => Except.ok a
  | none => Except.error "System is not running"

/-- Arbiter::system_arbiter (arbiter.rs 150-155): clone of the SYSARB cell,
panic "System is not running" when the cell is unset. -/
def Arbiter.system_arbiter (tl : ThreadLocals) : Except String SyncAddrArbiter :=
  match tl.sysarb with
  | some a => Except.ok a
  | none => Except.error "System is not running"

/-- Arbiter::system_name (arbiter.rs 158-163): clone of the SYSNAME cell,
panic "System is not running" when the cell is unset. -/
def Arbiter.system_name (tl : ThreadLocals) : Except String String :=
  match tl.sysname with
  | some n => Except.ok n
  | none => Except.error "System is not running"

/-- Arbiter::system_registry (arbiter.rs 166-171): reference to the SYSREG
cell's content, panic "System is not running" when the cell is unset. -/
def Arbiter.system_registry (tl : ThreadLocals) : Except String SystemRegistry :=
  match tl.sysreg with
  | some r => Except.ok r
  | none => Except.error "System is not running"

/-- Arbiter::handle (arbiter.rs 174-179): reference to the HND cell's
content, panic "Arbiter is not running" when the cell is unset. -/
def Arbiter.handle (tl : ThreadLocals) : Except String Handle :=
  match tl.hnd with
  | some h => Except.ok h
  | none => Except.error "Arbiter is not running"

/-- Arbiter::registry (arbiter.rs 182-187): reference to the REG cell's
content, panic "System is not running" when the cell is unset. -/
def Arbiter.registry (tl : ThreadLocals) : Except String Registry :=
  match tl.reg with
  | some r => Except.ok r
  | none => Except.error "System is not running"

/-- Observable outcome of running Handler<StopArbiter> for Arbiter:
the actor value after the call (the handler never writes `self`), the
thread-local cells after the call, the value sent on the oneshot stop
channel if any, and whether the warning was logged. -/
structure StopOutcome where
  self : Arbiter
  locals : ThreadLocals
  stopSignal : Option ExitCode
  warned : Bool
deriving DecidableEq

/-- Handler<StopArbiter> for Arbiter (arbiter.rs 196-212): on the system
arbiter only warn; otherwise take the STOP cell and, if a sender was
present, send the message's exit code on it (the send result is
discarded). The response is Self::empty() in every branch. -/
def handleStopArbiter (self : Arbiter) (tl : ThreadLocals) (code : ExitCode) :
    StopOutcome × Response Unit Unit :=
  if self.sys then
    ({ self := self, locals := tl, stopSignal := none, warned := true },
     Response.empty)
  else
    match tl.stop with
    | some _ =>
        ({ self := self, locals := { tl with stop := none },
           stopSignal := some code, warned := false },
         Response.empty)
    | none =>
        ({ self := self, locals := tl, stopSignal := none, warned := false },
         Response.empty)

/-- The child event loop (core.run(stop_rx)) ends exactly when a value
arrives on the stop channel: no stop signal means the loop keeps running. -/
def loopStopped (sig : Option ExitCode) : Bool := sig.isSome

/-- State of the std::sync::mpsc handshake channel of Arbiter::new, as seen
by the parent at rx.recv(): a value was sent, every sender was dropped
without sending, or a sender is still alive with nothing sent yet. -/
inductive HandshakeState where
  | sent : SyncAddrArbiter → HandshakeState
  | dropped
  | pending
deriving DecidableEq

/-- What the caller of Arbiter::new observes from `rx.recv().unwrap()`
(arbiter.rs 101). -/
inductive RecvOutcome where
  | returned : SyncAddrArbiter → RecvOutcome
  | panicked : String → RecvOutcome
  | blocked
deriving DecidableEq

/-- Whether the recv outcome is the blocking one. -/
def RecvOutcome.isBlocked : RecvOutcome → Bool
  | RecvOutcome.blocked => true
  | _ => false

/-- Whether the recv outcome returned an address. -/
def RecvOutcome.isReturned : RecvOutcome → Bool
  | RecvOutcome.returned _ => true
  | _ => false

/-- rx.recv().unwrap() (arbiter.rs 101): Ok(value) when the child sent one;
Err(RecvError), hence an unwrap panic, when every sender was dropped
without sending; blocks while a sender is alive and nothing was sent. -/
def recvUnwrap : HandshakeState → RecvOutcome
  | HandshakeState.sent a => RecvOutcome.returned a
  | HandshakeState.dropped =>
      RecvOutcome.panicked "called Result::unwrap on an Err value: RecvError"
  | HandshakeState.pending => RecvOutcome.blocked

/-- The child thread of Arbiter::new up to the handshake (arbiter.rs
67-86): when startup succeeds, the thread starts the actor
Arbiter { sys: false, id } and sends its SyncAddress on tx; when the child
thread fails to start (thread::Builder::spawn fails, or the closure unwinds
before the send, e.g. Core::new().unwrap() panicking), the closure and with
it tx are dropped without a send. -/
def childStartup (started : Bool) (id : String) : HandshakeState :=
  if started then HandshakeState.sent ⟨{ id := id, sys := false }⟩
  else HandshakeState.dropped

/-- Arbiter::new as observed by its caller (arbiter.rs 53-102): spawn the
child thread, then return `rx.recv().unwrap()`. -/
def Arbiter.new (started : Bool) (id : String) : RecvOutcome :=
  recvUnwrap (childStartup started id)

/-- Events of the spawned thread body of Arbiter::new (arbiter.rs 67-99),
in program order. -/
inductive ThreadEvent where
  | handshakeSend : SyncAddrArbiter → ThreadEvent
  | runLoop : ExitCode → ThreadEvent
  | logStartFailed : ThreadEvent
  | sendUnregister : String → ThreadEvent
deriving DecidableEq

/-- The spawned thread body after thread-local setup (arbiter.rs 86-98):
send the new arbiter's SyncAddress on tx; if that succeeded run the event
loop until the stop channel resolves (an Err from core.run counts as exit
code 1), otherwise log the error; in either case finish by sending
UnregisterArbiter with this arbiter's id to System, then the thread
exits. -/
def arbiterThreadBody (id : String) (handshakeOk : Bool)
    (runResult : Except Unit ExitCode) : List ThreadEvent :=
  (if handshakeOk then
    [ThreadEvent.handshakeSend ⟨{ id := id, sys := false }⟩,
     ThreadEvent.runLoop
       (match runResult with
        | Except.ok c => c
        | Except.error _ => 1)]
   else [ThreadEvent.logStartFailed])
  ++ [ThreadEvent.sendUnregister id]

/-- Execute<I, E> message (msgs::Execute): wraps a FnOnce() -> Result<I, E>
invoked by msg.exec(). -/
structure Execute (I E : Type) where
  exec : Unit → Except E I

/-- Handler<Execute<I, E>> for Arbiter (arbiter.rs 234-244): run the
computation and turn Ok into Self::reply, Err into Self::reply_error. -/
def handleExecute {I E : Type} (msg : Execute I E) : Response I E :=
  match msg.exec () with
  | Except.ok i => Response.reply i
  | Except.error e => Response.error e

/-- Process signal kinds (signal.rs 82-94). -/
inductive SignalType where
  | Hup
  | Int
  | Term
  | Quit
  | Child
deriving DecidableEq

/-- Process signal message (signal.rs 97): Signal(pub SignalType). -/
structure Signal where
  kind : SignalType
deriving DecidableEq

/-- Box<Subscriber<Signal>>: a subscriber handle with an abstract identity;
Subscriber::send succeeds exactly while the subscriber's mailbox is still
reachable. -/
structure SubscriberHandle where
  sid : Nat
  reachable : Bool
deriving DecidableEq

/-- Result flag of subscr.send(Signal(msg)): is_ok of the send. -/
def SubscriberHandle.sendOk (s : SubscriberHandle) (_sig : Signal) : Bool :=
  s.reachable

/-- The ProcessSignals actor state (signal.rs 100-102): its subscriber
list. -/
structure ProcessSignals where
  subscribers : List SubscriberHandle
deriving DecidableEq

/-- The loop of Handler<SignalType> for ProcessSignals (signal.rs 171-176):
walk the taken subscriber list in order, attempt one send of Signal(msg) to
each, keep exactly the subscribers whose send returned Ok, and record every
attempted delivery with its success flag. -/
def signalFanout (msg : SignalType) (subs : List SubscriberHandle) :
    List SubscriberHandle × List (SubscriberHandle × Bool) :=
  match subs with
  | [] => ([], [])
  | subscr :: rest =>
      let r := signalFanout msg rest
      if subscr.sendOk ⟨msg⟩ then (subscr :: r.1, (subscr, true) :: r.2)
      else (r.1, (subscr, false) :: r.2)

/-- Handler<SignalType, io::Error> for ProcessSignals (signal.rs 167-183):
replace the subscriber list by the retained ones; the response is
Self::empty() unconditionally (the error callback only logs). Returns the
new actor state, the attempted deliveries, and the response. -/
def handleSignalType (self : ProcessSignals) (msg : SignalType) :
    ProcessSignals × List (SubscriberHandle × Bool) × Response Unit Unit :=
  let r := signalFanout msg self.subscribers
  ({ subscribers := r.1 }, r.2, Response.empty)

/-- Handler<Subscribe> for ProcessSignals (signal.rs 194-202): push the new
subscriber. -/
def handleSubscribe (self : ProcessSignals) (subscr : SubscriberHandle) :
    ProcessSignals × Response Unit Unit :=
  ({ subscribers := self.subscribers ++ [subscr] }, Response.empty)

/-- A message sent to the System address by a signal handler. -/
inductive SystemMsg where
  | systemExit : ExitCode → SystemMsg
deriving DecidableEq

/-- Handler<Signal> for DefaultSignalsHandler (signal.rs 231-255): send
SystemExit(0) to Arbiter::system() for Int, Term and Quit; only log for
Hup; do nothing for the remaining kind (Child); respond Self::empty() in
every case. Returns the messages sent to System and the response. -/
def handleDefaultSignal (msg : Signal) : List SystemMsg × Response Unit Unit :=
  match msg.kind with
  | SignalType.Int => ([SystemMsg.systemExit 0], Response.empty)
  | SignalType.Hup => ([], Response.empty)
  | SignalType.Term => ([SystemMsg.systemExit 0], Response.empty)
  | SignalType.Quit => ([SystemMsg.systemExit 0], Response.empty)
  | SignalType.Child => ([], Response.empty)

/-- A concrete system arbiter, used by concrete instantiations below. -/
def sysArb : Arbiter := { id := "sysid", sys := true }

/-- A concrete non-system arbiter, used by concrete instantiations below. -/
def normArb : Arbiter := { id := "w1", sys := false }

/-- Fully initialized thread-local cells, used by concrete instantiations
below. -/
def tl0 : ThreadLocals :=
  { hnd := some 0, stop := some 7, addr := some 1, reg := some 2,
    name := some "arbiter:w1", sys := some 3, sysarb := some ⟨sysArb⟩,
    sysname := some "test", sysreg := some 4 }

/-- A reachable subscriber. -/
def subA : SubscriberHandle := { sid := 0, reachable := true }

/-- A subscriber whose mailbox was closed: sends to it fail. -/
def subB : SubscriberHandle := { sid := 1, reachable := false }

/-- Another reachable subscriber. -/
def subC : SubscriberHandle := { sid := 2, reachable := true }

/-- ProcessSignals with three registered subscribers, one of them closed. -/
def ps3 : ProcessSignals := { subscribers := [subA, subB, subC] }

/-- A concrete succeeding Execute message. -/
def exOk : Execute Nat String := { exec := fun _ => Except.ok 42 }

/-- Retained subscribers of the fanout loop: exactly those whose send
succeeded, in their original order. -/
theorem signalFanout_retained (msg : SignalType) (subs : List SubscriberHandle) :
    (signalFanout msg subs).1 = subs.filter (fun s => s.sendOk ⟨msg⟩) := by
  induction subs with
  | nil => rfl
  | cons a rest ih =>
      by_cases h : a.sendOk ⟨msg⟩ <;>
        simp [signalFanout, List.filter, h, ih]

/-- Attempted deliveries of the fanout loop: one per subscriber of the
taken list in order, tagged with the send result. -/
theorem signalFanout_deliveries (msg : SignalType) (subs : List SubscriberHandle) :
    (signalFanout msg subs).2 = subs.map (fun s => (s, s.sendOk ⟨msg⟩)) := by
  induction subs with
  | nil => rfl
  | cons a rest ih =>
      by_cases h : a.sendOk ⟨msg⟩ <;>
        simp [signalFanout, h, ih]

/-- C1: on the distinguished system arbiter the StopArbiter handler rejects
the stop request: no value is sent on the stop channel (so the event loop
is not told to terminate, for every exit code carried by the message), the
actor value and every thread-local cell are unchanged, only the warning is
emitted, and the response is empty. -/
theorem stopArbiter_system_rejected (self : Arbiter) (tl : ThreadLocals)
    (code : ExitCode) (hsys : self.sys = true) :
    (handleStopArbiter self tl code).1.stopSignal = none
  ∧ loopStopped (handleStopArbiter self tl code).1.stopSignal = false
  ∧ (handleStopArbiter self tl code).1.locals = tl
  ∧ (handleStopArbiter self tl code).1.self = self
  ∧ (handleStopArbiter self tl code).1.warned = true
  ∧ (handleStopArbiter self tl code).2 = Response.empty := by
  simp [handleStopArbiter, hsys, loopStopped]

theorem stopArbiter_system_rejected_witness :
    (handleStopArbiter sysArb tl0 3).1.stopSignal = none
  ∧ loopStopped (handleStopArbiter sysArb tl0 3).1.stopSignal = false
  ∧ (handleStopArbiter sysArb tl0 3).1.locals = tl0
  ∧ (handleStopArbiter sysArb tl0 3).1.self = sysArb
  ∧ (handleStopArbiter sysArb tl0 3).1.warned = true
  ∧ (handleStopArbiter sysArb tl0 3).2 = Response.empty :=
  stopArbiter_system_rejected sysArb tl0 3 rfl

/-- C2: on a normal (non-system) arbiter whose stop sender is still
present, the StopArbiter handler sends the message's exit code on the stop
channel (so the event loop terminates with that code), and the spawned
thread body always ends with sending UnregisterArbiter carrying this
arbiter's own id to System, as its last event before the thread exits. -/
theorem stopArbiter_normal_stops_and_unregisters (self : Arbiter)
    (tl : ThreadLocals) (code : ExitCode) (sender : StopSender)
    (hsys : self.sys = false) (hstop : tl.stop = some sender) :
    (handleStopArbiter self tl code).1.stopSignal = some code
  ∧ loopStopped (handleStopArbiter self tl code).1.stopSignal = true
  ∧ (∀ handshakeOk runResult,
      (arbiterThreadBody self.id handshakeOk runResult).getLast?
        = some (ThreadEvent.sendUnregister self.id)) := by
  refine ⟨?_, ?_, ?_⟩
  · simp [handleStopArbiter, hsys, hstop]
  · simp [handleStopArbiter, hsys, hstop, loopStopped]
  · intro handshakeOk runResult
    cases handshakeOk <;> simp [arbiterThreadBody]

theorem stopArbiter_normal_stops_and_unregisters_witness :
    (handleStopArbiter normArb tl0 5).1.stopSignal = some 5
  ∧ loopStopped (handleStopArbiter normArb tl0 5).1.stopSignal = true
  ∧ (∀ handshakeOk runResult,
      (arbiterThreadBody normArb.id handshakeOk runResult).getLast?
        = some (ThreadEvent.sendUnregister normArb.id)) :=
  stopArbiter_normal_stops_and_unregisters normArb tl0 5 7 rfl rfl

/-- C3: the ProcessSignals SignalType handler attempts exactly one send of
Signal(msg) per currently registered subscriber (the delivery list projects
back to the subscriber list itself); each subscriber is delivered with its
send outcome; the retained list is exactly the subscribers whose send
succeeded; a subscriber whose send fails is no longer registered and gets
no delivery from a later signal; and the handler always responds with the
empty (non-error) response. -/
theorem processSignals_fanout (self : ProcessSignals) (msg msg2 : SignalType) :
    ((handleSignalType self msg).2.1).map Prod.fst = self.subscribers
  ∧ (∀ s, s ∈ self.subscribers →
      (s, s.sendOk ⟨msg⟩) ∈ (handleSignalType self msg).2.1)
  ∧ (handleSignalType self msg).1.subscribers
      = self.subscribers.filter (fun s => s.sendOk ⟨msg⟩)
  ∧ (∀ s, s.sendOk ⟨msg⟩ = false →
      s ∉ (handleSignalType self msg).1.subscribers
      ∧ s ∉ ((handleSignalType (handleSignalType self msg).1 msg2).2.1).map
          Prod.fst)
  ∧ (handleSignalType self msg).2.2 = Response.empty := by
  have hret := signalFanout_retained msg self.subscribers
  have hdel := signalFanout_deliveries msg self.subscribers
  have hret2 := signalFanout_retained msg2 (signalFanout msg self.subscribers).1
  have hdel2 := signalFanout_deliveries msg2 (signalFanout msg self.subscribers).1
  refine ⟨?_, ?_, ?_, ?_, rfl⟩
  · simp [handleSignalType, hdel]
    exact List.map_id' _
  · intro s hs
    have hm : (s, s.sendOk ⟨msg⟩) ∈ (signalFanout msg self.subscribers).2 := by
      rw [hdel]
      exact List.mem_map_of_mem _ hs
    simpa [handleSignalType] using hm
  · simp [handleSignalType, hret]
  · intro s hfail
    have hnot : s ∉ (signalFanout msg self.subscribers).1 := by
      rw [hret]
      intro hmem
      have := (List.mem_filter.mp hmem).2
      rw [hfail] at this
      exact Bool.false_ne_true this
    refine ⟨?_, ?_⟩
    · simpa [handleSignalType] using hnot
    · simp [handleSignalType, hdel2, Function.comp, List.map_id']
      exact hnot

theorem processSignals_fanout_witness :
    (subB, false) ∈ (handleSignalType ps3 SignalType.Term).2.1
  ∧ subB ∉ (handleSignalType ps3 SignalType.Term).1.subscribers :=
  ⟨(processSignals_fanout ps3 SignalType.Term SignalType.Int).2.1 subB
      (by decide),
   ((processSignals_fanout ps3 SignalType.Term SignalType.Int).2.2.2.1 subB
      (by decide)).1⟩

/-- C4 counterexample: at the concrete failing startup, the handshake
sender is dropped without a send, rx.recv() yields Err(RecvError), and the
unwrap panics — Arbiter::new fails instead of blocking, refuting that the
call "neither returns an address nor fails". -/
theorem arbiter_new_spawn_failure_panics :
    Arbiter.new false "u"
      = RecvOutcome.panicked "called Result::unwrap on an Err value: RecvError"
  ∧ (Arbiter.new false "u").isBlocked = false := by
  exact ⟨rfl, rfl⟩

/-- C4 amended: for every call to Arbiter::new in which the child thread
fails to start, the closure and its handshake sender are dropped, so
rx.recv() returns Err and the unwrap panics: the call fails with a panic —
it neither returns an address nor blocks. -/
theorem arbiter_new_spawn_failure (id : String) :
    Arbiter.new false id
      = RecvOutcome.panicked "called Result::unwrap on an Err value: RecvError"
  ∧ (Arbiter.new false id).isBlocked = false
  ∧ (Arbiter.new false id).isReturned = false :=
  ⟨rfl, rfl, rfl⟩

/-- C5 counterexample: handling StopArbiter on a running non-system arbiter
mutates a thread-local cell after thread-start initialization — the STOP
cell is taken, so the thread-local state after the handler differs from the
state established at initialization. -/
theorem thread_locals_mutated_after_init :
    (handleStopArbiter normArb tl0 0).1.locals.stop = none
  ∧ tl0.stop = some 7 := by
  exact ⟨rfl, rfl⟩

/-- C5 amended: every thread-local cell except the stop sender is written
only during thread-start initialization and never mutated afterwards; the
stop sender cell is additionally consumed (taken, left unset) by the
StopArbiter handler, the only post-initialization mutation: after any
StopArbiter handling the stop cell is either unchanged or unset. -/
theorem thread_locals_immutable_except_stop (self : Arbiter)
    (tl : ThreadLocals) (code : ExitCode) :
    (handleStopArbiter self tl code).1.locals.hnd = tl.hnd
  ∧ (handleStopArbiter self tl code).1.locals.addr = tl.addr
  ∧ (handleStopArbiter self tl code).1.locals.reg = tl.reg
  ∧ (handleStopArbiter self tl code).1.locals.name = tl.name
  ∧ (handleStopArbiter self tl code).1.locals.sys = tl.sys
  ∧ (handleStopArbiter self tl code).1.locals.sysarb = tl.sysarb
  ∧ (handleStopArbiter self tl code).1.locals.sysname = tl.sysname
  ∧ (handleStopArbiter self tl code).1.locals.sysreg = tl.sysreg
  ∧ ((handleStopArbiter self tl code).1.locals.stop = tl.stop
      ∨ (handleStopArbiter self tl code).1.locals.stop = none) := by
  cases hs : self.sys <;> cases ht : tl.stop <;>
    simp [handleStopArbiter, hs, ht]

/-- C6: each thread-local accessor of Arbiter (name, arbiter, system,
system_arbiter, system_name, system_registry, handle, registry) fails
fatally with its panic message when its cell is unset, and returns the
stored value when the cell is set. -/
theorem thread_local_accessors (tl : ThreadLocals) (s : String) (n : Nat)
    (sa : SyncAddrArbiter) :
    (Arbiter.name { tl with name := none }
        = Except.error "Arbiter is not running"
      ∧ Arbiter.name { tl with name := some s } = Except.ok s)
  ∧ (Arbiter.arbiter { tl with addr := none }
        = Except.error "Arbiter is not running"
      ∧ Arbiter.arbiter { tl with addr := some n } = Except.ok n)
  ∧ (Arbiter.system { tl with sys := none }
        = Except.error "System is not running"
      ∧ Arbiter.system { tl with sys := some n } = Except.ok n)
  ∧ (Arbiter.system_arbiter { tl with sysarb := none }
        = Except.error "System is not running"
      ∧ Arbiter.system_arbiter { tl with sysarb := some sa } = Except.ok sa)
  ∧ (Arbiter.system_name { tl with sysname := none }
        = Except.error "System is not running"
      ∧ Arbiter.system_name { tl with sysname := some s } = Except.ok s)
  ∧ (Arbiter.system_registry { tl with sysreg := none }
        = Except.error "System is not running"
      ∧ Arbiter.system_registry { tl with sysreg := some n } = Except.ok n)
  ∧ (Arbiter.handle { tl with hnd := none }
        = Except.error "Arbiter is not running"
      ∧ Arbiter.handle { tl with hnd := some n } = Except.ok n)
  ∧ (Arbiter.registry { tl with reg := none }
        = Except.error "System is not running"
      ∧ Arbiter.registry { tl with reg := some n } = Except.ok n) :=
  ⟨⟨rfl, rfl⟩, ⟨rfl, rfl⟩, ⟨rfl, rfl⟩, ⟨rfl, rfl⟩, ⟨rfl, rfl⟩, ⟨rfl, rfl⟩,
   ⟨rfl, rfl⟩, ⟨rfl, rfl⟩⟩

/-- C7: whenever Arbiter::new returns an address, the child thread has sent
exactly that SyncAddress over the handshake channel, and it is the address
of the Arbiter actor started inside the child's event loop (the non-system
Arbiter carrying the id generated for this call). -/
theorem arbiter_new_returns_child_address (started : Bool) (id : String)
    (a : SyncAddrArbiter)
    (h : Arbiter.new started id = RecvOutcome.returned a) :
    childStartup started id = HandshakeState.sent a
  ∧ a = ⟨{ id := id, sys := false }⟩ := by
  cases started with
  | false =>
      simp [Arbiter.new, childStartup, recvUnwrap] at h
  | true =>
      simp [Arbiter.new, childStartup, recvUnwrap] at h
      simp [childStartup, h]

theorem arbiter_new_returns_child_address_witness :
    childStartup true "w7" = HandshakeState.sent ⟨{ id := "w7", sys := false }⟩
  ∧ (⟨{ id := "w7", sys := false }⟩ : SyncAddrArbiter)
      = ⟨{ id := "w7", sys := false }⟩ :=
  arbiter_new_returns_child_address true "w7" ⟨{ id := "w7", sys := false }⟩ rfl

/-- C8: the Execute handler runs the contained computation and returns a
typed response equal to its outcome — a reply carrying the Ok value on
success, an error reply carrying the Err value on failure; the failure is
returned as response data (a Response value), never thrown. -/
theorem execute_relays_outcome {I E : Type} (msg : Execute I E) (i : I)
    (e : E) :
    (msg.exec () = Except.ok i → handleExecute msg = Response.reply i)
  ∧ (msg.exec () = Except.error e → handleExecute msg = Response.error e) := by
  constructor <;> intro h <;> simp [handleExecute, h]

theorem execute_relays_outcome_witness :
    handleExecute exOk = Response.reply 42 :=
  (execute_relays_outcome exOk 42 "boom").1 rfl

/-- C9: handling StopArbiter on a non-system arbiter is one-shot — the
first handling leaves the stop cell unset, so a second handling (with any
exit code) sends no stop signal and leaves the thread-local state exactly
as after the first handling. -/
theorem stopArbiter_one_shot (self : Arbiter) (tl : ThreadLocals)
    (c1 c2 : ExitCode) (hsys : self.sys = false) :
    (handleStopArbiter self tl c1).1.locals.stop = none
  ∧ (handleStopArbiter self
      ((handleStopArbiter self tl c1).1.locals) c2).1.stopSignal = none
  ∧ (handleStopArbiter self
      ((handleStopArbiter self tl c1).1.locals) c2).1.locals
      = (handleStopArbiter self tl c1).1.locals := by
  cases ht : tl.stop <;> simp [handleStopArbiter, hsys, ht]

theorem stopArbiter_one_shot_witness :
    (handleStopArbiter normArb tl0 5).1.locals.stop = none
  ∧ (handleStopArbiter normArb
      ((handleStopArbiter normArb tl0 5).1.locals) 9).1.stopSignal = none
  ∧ (handleStopArbiter normArb
      ((handleStopArbiter normArb tl0 5).1.locals) 9).1.locals
      = (handleStopArbiter normArb tl0 5).1.locals :=
  stopArbiter_one_shot normArb tl0 5 9 rfl

/-- C10: the DefaultSignalsHandler Signal handler sends SystemExit(0) to
the System address exactly when the kind is Int, Term or Quit, sends
nothing for Hup and Child, and always responds with the empty response. -/
theorem default_signals_exit (k : SignalType) :
    ((handleDefaultSignal ⟨k⟩).1 = [SystemMsg.systemExit 0]
      ↔ (k = SignalType.Int ∨ k = SignalType.Term ∨ k = SignalType.Quit))
  ∧ ((handleDefaultSignal ⟨k⟩).1 = []
      ↔ (k = SignalType.Hup ∨ k = SignalType.Child))
  ∧ (handleDefaultSignal ⟨k⟩).2 = Response.empty := by
  cases k <;> simp [handleDefaultSignal]

end ActixModel
